import Mathlib

set_option maxHeartbeats 1000000

/-!
A shallow embedding of the war-game Streamlit app (src/app.py).

Conventions of the embedding:
* A spreadsheet cell is an `Option String`; `none` models a null/NaN cell
  (pandas `dropna` removes exactly those).
* `pd.read_excel` on the derived export URL is modelled by an explicit
  oracle `fetch : String → Except String DataFrame`; `Except.error e`
  stands for any exception raised during transport or parsing, carrying
  the exception text `e`.
* `st.session_state` is the record `SessionState`; a key that is not yet
  present is the outer `none` (for `imprevisti_df`, whose Python value can
  itself be `None`, the type is `Option (Option DataFrame)`).
* Calls to `st.error` / `st.info` / `st.success` / `st.warning` are
  modelled as emitted `Msg` values, so that which message is shown on each
  path is part of the formalised behaviour.
-/

/-- One column of a parsed spreadsheet: a header name and the cells
top-to-bottom (`none` = empty/NaN cell). -/
structure Column where
  name : String
  cells : List (Option String)
  deriving DecidableEq

/-- A parsed tabular document (a pandas DataFrame): its ordered columns. -/
structure DataFrame where
  cols : List Column
  deriving DecidableEq

/-- Column selection `df[n]` (first column with that header). -/
def DataFrame.getCol (df : DataFrame) (n : String) : Option Column :=
  df.cols.find? (fun c => c.name == n)

/-- The membership test `n in df.columns` (src/app.py line 56). -/
def DataFrame.hasCol (df : DataFrame) (n : String) : Bool :=
  df.cols.any (fun c => c.name == n)

/-- `len(df)`: the number of rows (length of the first column;
0 for a dataframe with no columns). Used by the success banner. -/
def DataFrame.nrows (df : DataFrame) : Nat :=
  match df.cols with
  | [] => 0
  | c :: _ => c.cells.length

/-- Whether the first list is a prefix of the second (character match). -/
def isPrefixList : List Char → List Char → Bool
  | [], _ => true
  | _ :: _, [] => false
  | p :: ps, c :: cs => p == c && isPrefixList ps cs

/-- Python's `s.split(sep)` for a non-empty separator, scanning left to
right and skipping the separator after each match.  The `fuel` argument
only makes the recursion structural; `fuel = s.length` is always enough
when `sep` is non-empty, so the fallback branches are never reached at
the call sites below. -/
def pySplitFuel (sep : List Char) : Nat → List Char → List (List Char)
  | 0, s => [s]
  | fuel + 1, s =>
    match s with
    | [] => [[]]
    | c :: cs =>
      if isPrefixList sep s then
        [] :: pySplitFuel sep fuel (List.drop sep.length s)
      else
        match pySplitFuel sep fuel cs with
        | [] => [s]
        | piece :: rest => (c :: piece) :: rest

/-- Python's `s.split(sep)` on character lists. -/
def pySplit (sep s : List Char) : List (List Char) :=
  pySplitFuel sep s.length s

/-- Python's substring test `pat in s` (for a non-empty pattern):
`s.split(pat)` has more than one piece iff `pat` occurs in `s`. -/
def containsSub (s pat : String) : Bool :=
  1 < (pySplit pat.data s.data).length

/-- The user-visible banners the app can emit (st.error / st.info /
st.success / st.warning calls in src/app.py). `loadError e` is the
generic handler `st.error(f"Errore nel caricamento o lettura del file: ...")`
with the exception text `e`. -/
inductive Msg
  | invalidUrl
  | loadError (e : String)
  | shareHint
  | schemaError
  | successLoaded (n : Nat)
  | warnEnterUrl
  | team1Lost
  | team2Lost
  deriving DecidableEq

/-- `url.split('/d/')[1].split('/')[0]` (src/app.py line 48): the text
after the first `/d/` up to the next `/`.  When `/d/` does not occur,
Python raises `IndexError("list index out of range")`, modelled as
`Except.error`. -/
def extractFileId (url : String) : Except String String :=
  match pySplit "/d/".data url.data with
  | _ :: rest :: _ => Except.ok (String.mk ((pySplit "/".data rest).headD []))
  | _ => Except.error "list index out of range"

/-- The derived direct-export URL (src/app.py line 49). -/
def exportUrl (fileId : String) : String :=
  "https://docs.google.com/spreadsheets/d/" ++ fileId ++ "/export?format=xlsx"

/-- Everything observable about one run of `load_data_from_gdrive`:
the returned value (`None` or the parsed dataframe), the banners shown,
and whether execution reached the network fetch (`pd.read_excel`). -/
structure LoadOutput where
  retval : Option DataFrame
  msgs : List Msg
  fetched : Bool
  deriving DecidableEq

/-- `load_data_from_gdrive` (src/app.py lines 36-65).  The whole body is
wrapped in `try/except Exception`; the only statement that raises is the
subscript in `extractFileId` (IndexError) and the fetch/parse itself, and
both are routed to the generic `loadError`/`shareHint` pair.  All failure
paths return `none`. -/
def load_data_from_gdrive (fetch : String → Except String DataFrame)
    (url : String) : LoadOutput :=
  if containsSub url "google.com" = false then
    { retval := none, msgs := [Msg.invalidUrl], fetched := false }
  else
    match extractFileId url with
    | Except.error e =>
        { retval := none, msgs := [Msg.loadError e, Msg.shareHint], fetched := false }
    | Except.ok fid =>
        match fetch (exportUrl fid) with
        | Except.error e =>
            { retval := none, msgs := [Msg.loadError e, Msg.shareHint], fetched := true }
        | Except.ok df =>
            if df.hasCol "imprevisto" = false then
              { retval := none, msgs := [Msg.schemaError], fetched := true }
            else
              { retval := some df, msgs := [], fetched := true }

/-- One row of a team table: the factor label and the two numeric columns
`Valore` (authoritative) and `Barra` (progress-bar mirror). -/
structure FactorRow where
  fattore : String
  valore : Int
  barra : Int
  deriving DecidableEq

/-- The default per-team dataframe built in `initialize_state`
(src/app.py lines 17-21): eight factors, all values 100. -/
def defaultTeam : List FactorRow :=
  [⟨"👤 Popolazione", 100, 100⟩, ⟨"🥫 Cibo", 100, 100⟩, ⟨"💰 Finanze", 100, 100⟩,
   ⟨"🚑 Ospedali", 100, 100⟩, ⟨"🎒 Scuole", 100, 100⟩,
   ⟨"🔋 Centrali Elettriche", 100, 100⟩, ⟨"⛪ Luoghi di Culto", 100, 100⟩,
   ⟨"🫂 Solidarietà", 100, 100⟩]

/-- `st.session_state`: the three keys the app uses.  The outer `none`
means the key is not present yet. -/
structure SessionState where
  team1_df : Option (List FactorRow)
  team2_df : Option (List FactorRow)
  imprevisti_df : Option (Option DataFrame)
  deriving DecidableEq

/-- `initialize_state` (src/app.py lines 13-33): each missing key is
created (`team1_df`/`team2_df` as the default table, `imprevisti_df` as
Python `None`); a key already present is left untouched. -/
def initialize_state (s : SessionState) : SessionState :=
  { team1_df := match s.team1_df with
      | none => some defaultTeam
      | some t => some t
    team2_df := match s.team2_df with
      | none => some defaultTeam
      | some t => some t
    imprevisti_df := match s.imprevisti_df with
      | none => some none
      | some c => some c }

/-- The load-button handler (src/app.py lines 115-125): on a non-empty
URL it runs the loader and stores the result into `imprevisti_df`
(`some data` on success, reset to Python `None` on failure); on an empty
URL it only warns. -/
def loadButtonHandler (fetch : String → Except String DataFrame)
    (gdrive_url : String) (s : SessionState) : SessionState × List Msg :=
  if gdrive_url ≠ "" then
    let out := load_data_from_gdrive fetch gdrive_url
    match out.retval with
    | some data =>
        ({ s with imprevisti_df := some (some data) },
         out.msgs ++ [Msg.successLoaded data.nrows])
    | none => ({ s with imprevisti_df := some none }, out.msgs)
  else
    (s, [Msg.warnEnterUrl])

/-- `.loc[row, 'Valore'] = v; .loc[row, 'Barra'] = v` for one edited row
(src/app.py lines 76-77 and 89-90): positions beyond the table are
impossible here because the editor is `num_rows="fixed"`. -/
def updateRow : List FactorRow → Nat → Int → List FactorRow
  | [], _, _ => []
  | r :: rs, 0, v => { r with valore := v, barra := v } :: rs
  | r :: rs, n + 1, v => r :: updateRow rs n v

/-- The loop `for row, edit in edited_dict.items(): ...` shared by
`sync_team1` and `sync_team2` (src/app.py lines 75-77 and 88-90):
each entry of the sparse edit mapping writes both `Valore` and `Barra`
of its row.  The edit dict is modelled as an association list
(its keys are distinct in Python). -/
def apply_edits (t : List FactorRow) (edits : List (Nat × Int)) : List FactorRow :=
  edits.foldl (fun acc e => updateRow acc e.1 e.2) t

/-- `sync_team1` (src/app.py lines 67-77) on the session state. -/
def sync_team1 (s : SessionState) (edits : List (Nat × Int)) : SessionState :=
  { s with team1_df := s.team1_df.map (fun t => apply_edits t edits) }

/-- `sync_team2` (src/app.py lines 80-90) on the session state. -/
def sync_team2 (s : SessionState) (edits : List (Nat × Int)) : SessionState :=
  { s with team2_df := s.team2_df.map (fun t => apply_edits t edits) }

/-- `(df['Valore'] <= 0).any()` (src/app.py lines 213 and 218). -/
def has_critical_factor (t : List FactorRow) : Bool :=
  t.any (fun r => r.valore ≤ 0)

/-- The module-level game-over flag (src/app.py lines 132, 213-221):
starts `False`, set by each team's check in turn. -/
def gameOverFlag (t1 t2 : List FactorRow) : Bool :=
  let g0 := false
  let g1 := if has_critical_factor t1 then true else g0
  if has_critical_factor t2 then true else g1

/-- The banners of the game-over section (src/app.py lines 213-221):
one error per team whose check fires, in order. -/
def gameOverMsgs (t1 t2 : List FactorRow) : List Msg :=
  (if has_critical_factor t1 then [Msg.team1Lost] else []) ++
    (if has_critical_factor t2 then [Msg.team2Lost] else [])

/-- `st.session_state.imprevisti_df['imprevisto'].dropna().tolist()`
(src/app.py line 227).  `none` models the `KeyError` raised when the
column is absent (unreachable after a successful load). -/
def eventListOpt (df : DataFrame) : Option (List String) :=
  (df.getCol "imprevisto").map (fun c => c.cells.filterMap id)

/-- `event_list[selected_event - 1]` (src/app.py line 244); the number
input bounds `selected_event` to `[1, len(event_list)]`, so the fallback
`""` of `getD` is never reached in the app. -/
def draw (eventList : List String) (selected : Nat) : String :=
  eventList.getD (selected - 1) ""

/-- Modelled from the spec: the four-way load error taxonomy of spec
§4.1/§7 (`InvalidUrlError`, `MalformedUrlError`, `FetchError`,
`SchemaError`).  No such taxonomy exists in src/app.py; this comparator
classifies a failing input by the spec's own rules so that it can be
compared with what the code surfaces. -/
inductive SpecErrKind
  | invalidUrlError
  | malformedUrlError
  | fetchError
  | schemaError
  deriving DecidableEq

/-- Modelled from the spec: a URL "contains a `/d/<id>/` segment" when a
non-empty identifier sits between `/d/` and a following `/` (spec §4.1
step 2: "the URL path segment between `/d/` and the next `/`"). -/
def specHasDSegment (url : String) : Bool :=
  match pySplit "/d/".data url.data with
  | _ :: rest :: _ =>
      match pySplit "/".data rest with
      | fid :: _ :: _ => !fid.isEmpty
      | _ => false
  | _ => false

/-- Modelled from the spec: which of the four spec error kinds applies to
a given input (spec §4.1 steps 1-6); `none` when the load should
succeed. -/
def specErrKind (fetch : String → Except String DataFrame)
    (url : String) : Option SpecErrKind :=
  if containsSub url "google.com" = false then some SpecErrKind.invalidUrlError
  else if specHasDSegment url = false then some SpecErrKind.malformedUrlError
  else
    match extractFileId url with
    | Except.error _ => some SpecErrKind.malformedUrlError
    | Except.ok fid =>
        match fetch (exportUrl fid) with
        | Except.error _ => some SpecErrKind.fetchError
        | Except.ok df =>
            if df.hasCol "imprevisto" = false then some SpecErrKind.schemaError
            else none

/-- Modelled from the spec: the time-bounded cache `@st.cache_data(ttl=600)`
(src/app.py line 35) whose semantics live in the Streamlit library, made
explicit as spec §9 prescribes: key = URL, value = result + timestamp,
eviction = time-to-live check on read.  Newest entries sit at the front. -/
abbrev Cache := List (String × Nat × Option DataFrame)

/-- Modelled from the spec: cache read at time `now`; an entry answers
only while younger than the 600-second time-to-live. -/
def cacheLookup (cache : Cache) (url : String) (now : Nat) :
    Option (Option DataFrame) :=
  match cache.find? (fun e => e.1 == url) with
  | some e => if now - e.2.1 < 600 then some e.2.2 else none
  | none => none

/-- Modelled from the spec: `load_data_from_gdrive` as actually invoked
through `@st.cache_data(ttl=600)`: a fresh-enough cached result is
returned without running the body (so without any fetch); otherwise the
body runs and its result is stored under the URL.  Returns the result,
the new cache, and whether a network fetch happened. -/
def cachedLoad (fetch : String → Except String DataFrame) (cache : Cache)
    (url : String) (now : Nat) : Option DataFrame × Cache × Bool :=
  match cacheLookup cache url now with
  | some v => (v, cache, false)
  | none =>
      let out := load_data_from_gdrive fetch url
      (out.retval, (url, now, out.retval) :: cache, out.fetched)

/-! ### Concrete fixtures used by witnesses and counterexamples -/

/-- A fetch oracle on which every request fails (any transport error). -/
def fetchFail : String → Except String DataFrame :=
  fun _ => Except.error "HTTPError 404"

/-- A transport failure whose exception text happens to coincide with the
text of Python's IndexError; a transport error can carry any text. -/
def fetchFailIndexText : String → Except String DataFrame :=
  fun _ => Except.error "list index out of range"

/-- A parsed three-event catalog document (with one empty cell). -/
def eventsDf : DataFrame :=
  ⟨[⟨"imprevisto", [some "flood", none, some "riot", some "plague"]⟩]⟩

/-- A fetch oracle on which every request resolves to `eventsDf`. -/
def fetchEvents : String → Except String DataFrame :=
  fun _ => Except.ok eventsDf

/-- A well-formed sharing URL. -/
def goodUrl : String :=
  "https://docs.google.com/spreadsheets/d/1aBcD/edit?usp=sharing"

/-! ### Generic lemmas about the embedded operations -/

theorem length_filterMap_id_eq_countP (cs : List (Option String)) :
    (cs.filterMap id).length = cs.countP (fun c => c.isSome) := by
  induction cs with
  | nil => rfl
  | cons c cs ih => cases c <;> simp [List.filterMap_cons, List.countP_cons, ih]

theorem filterMap_id_map_some_sublist (cs : List (Option String)) :
    ((cs.filterMap id).map some).Sublist cs := by
  induction cs with
  | nil => simp
  | cons c cs ih =>
    cases c with
    | none => simpa [List.filterMap_cons] using ih.cons none
    | some a => simpa [List.filterMap_cons] using ih.cons₂ (some a)

/-! ### The claims -/

/-- C6: `has_critical_factor` is true iff some row's `raw_value ≤ 0`; it is
false on a freshly initialized table (all eight values 100); the game-over
flag is exactly "Team 1 critical or Team 2 critical", and each team's loss
banner is shown independently, exactly when that team has a critical
factor. -/
theorem critical_factor_spec :
    (∀ t : List FactorRow,
        has_critical_factor t = true ↔ ∃ r ∈ t, r.valore ≤ 0)
    ∧ has_critical_factor defaultTeam = false
    ∧ (∀ t1 t2 : List FactorRow,
        gameOverFlag t1 t2 = (has_critical_factor t1 || has_critical_factor t2))
    ∧ (∀ t1 t2 : List FactorRow,
        (Msg.team1Lost ∈ gameOverMsgs t1 t2 ↔ has_critical_factor t1 = true)
        ∧ (Msg.team2Lost ∈ gameOverMsgs t1 t2 ↔ has_critical_factor t2 = true)) := by
  refine ⟨fun t => ?_, by decide, fun t1 t2 => ?_, fun t1 t2 => ?_⟩
  · simp [has_critical_factor, List.any_eq_true]
  · cases h1 : has_critical_factor t1 <;> cases h2 : has_critical_factor t2 <;>
      simp [gameOverFlag, h1, h2]
  · cases h1 : has_critical_factor t1 <;> cases h2 : has_critical_factor t2 <;>
      simp [gameOverMsgs, h1, h2]

/-- C7: for a one-based index `i` in `[1, length]`, `draw` returns the
catalog entry at zero-based position `i - 1`; the catalog is passed by
value and never mutated, so repeated calls agree by purity. -/
theorem draw_spec (catalog : List String) (i : Nat)
    (h1 : 1 ≤ i) (h2 : i ≤ catalog.length) :
    ∃ h : i - 1 < catalog.length, draw catalog i = catalog.get ⟨i - 1, h⟩ := by
  have h : i - 1 < catalog.length := by omega
  refine ⟨h, ?_⟩
  simp [draw, List.getD_eq_getElem?_getD, List.getElem?_eq_getElem h,
    List.get_eq_getElem]

/-- C7 witness: on the catalog `["flood", "riot", "plague"]`, drawing
index 2 returns `"riot"`. -/
theorem draw_spec_witness :
    1 ≤ 2 ∧ 2 ≤ (["flood", "riot", "plague"] : List String).length
      ∧ draw ["flood", "riot", "plague"] 2 = "riot" := by
  refine ⟨by decide, by decide, ?_⟩
  obtain ⟨h, hd⟩ := draw_spec ["flood", "riot", "plague"] 2 (by decide) (by decide)
  simpa using hd

/-- C4: when the loaded document has an `imprevisto` column, the event
list is exactly that column's non-null cells: its length is the count of
non-null cells, and the kept entries appear in top-to-bottom order (their
`some`-image is a sublist of the column). -/
theorem event_list_extraction (df : DataFrame) (col : Column)
    (hcol : df.getCol "imprevisto" = some col) :
    eventListOpt df = some (col.cells.filterMap id)
    ∧ (col.cells.filterMap id).length = col.cells.countP (fun c => c.isSome)
    ∧ ((col.cells.filterMap id).map some).Sublist col.cells :=
  ⟨by simp [eventListOpt, hcol], length_filterMap_id_eq_countP _,
    filterMap_id_map_some_sublist _⟩

/-- C4 witness: the four-cell fixture column (one empty cell) yields the
three-event catalog in order. -/
theorem event_list_extraction_witness :
    eventListOpt eventsDf = some ["flood", "riot", "plague"] := by
  have h := (event_list_extraction eventsDf
    ⟨"imprevisto", [some "flood", none, some "riot", some "plague"]⟩ rfl).1
  exact h

theorem length_updateRow (t : List FactorRow) (r : Nat) (v : Int) :
    (updateRow t r v).length = t.length := by
  induction t generalizing r with
  | nil => rfl
  | cons x xs ih =>
    cases r with
    | zero => rfl
    | succ n => simp [updateRow, ih]

theorem getElem?_updateRow_ne (t : List FactorRow) (r row : Nat) (v : Int)
    (h : row ≠ r) : (updateRow t r v)[row]? = t[row]? := by
  induction t generalizing r row with
  | nil => rfl
  | cons x xs ih =>
    cases r with
    | zero =>
      cases row with
      | zero => exact absurd rfl h
      | succ m => simp [updateRow]
    | succ n =>
      cases row with
      | zero => simp [updateRow]
      | succ m => simpa [updateRow] using ih n m (by omega)

theorem getElem?_updateRow_self (t : List FactorRow) (r : Nat) (v : Int) :
    (updateRow t r v)[r]? =
      (t[r]?).map (fun x => { x with valore := v, barra := v }) := by
  induction t generalizing r with
  | nil => rfl
  | cons x xs ih =>
    cases r with
    | zero => simp [updateRow]
    | succ n => simpa [updateRow] using ih n

theorem apply_edits_cons (t : List FactorRow) (r : Nat) (v : Int)
    (es : List (Nat × Int)) :
    apply_edits t ((r, v) :: es) = apply_edits (updateRow t r v) es := rfl

theorem getElem?_apply_edits_not_mem (t : List FactorRow)
    (es : List (Nat × Int)) (row : Nat) (h : row ∉ es.map Prod.fst) :
    (apply_edits t es)[row]? = t[row]? := by
  induction es generalizing t with
  | nil => rfl
  | cons e es ih =>
    simp only [List.map_cons, List.mem_cons] at h
    push_neg at h
    obtain ⟨r, w⟩ := e
    rw [apply_edits_cons, ih _ h.2, getElem?_updateRow_ne _ _ _ _ h.1]

theorem length_apply_edits (t : List FactorRow) (es : List (Nat × Int)) :
    (apply_edits t es).length = t.length := by
  induction es generalizing t with
  | nil => rfl
  | cons e es ih =>
    obtain ⟨r, w⟩ := e
    rw [apply_edits_cons, ih, length_updateRow]

theorem getElem?_apply_edits_lookup (es : List (Nat × Int)) (t : List FactorRow)
    (row : Nat) (v : Int) (hnd : (es.map Prod.fst).Nodup)
    (hl : es.lookup row = some v) :
    (apply_edits t es)[row]? =
      (t[row]?).map (fun x => { x with valore := v, barra := v }) := by
  induction es generalizing t with
  | nil => simp [List.lookup] at hl
  | cons e es ih =>
    obtain ⟨r, w⟩ := e
    simp only [List.map_cons, List.nodup_cons] at hnd
    rw [apply_edits_cons]
    by_cases hr : row = r
    · subst hr
      have hb : (row == row) = true := by simp
      simp only [List.lookup, hb] at hl
      obtain rfl : w = v := by injection hl
      rw [getElem?_apply_edits_not_mem _ _ _ hnd.1, getElem?_updateRow_self]
    · have hb : (row == r) = false := by simp [hr]
      simp only [List.lookup, hb] at hl
      rw [ih _ hnd.2 hl, getElem?_updateRow_ne _ _ _ _ hr]

/-- C5: for every table and every sparse edit mapping (distinct rows,
values in [0,100]), `apply_edits` leaves the row count unchanged, sets
both `Valore` (raw) and `Barra` (display) of every edited row to the
incoming value while keeping its factor label, leaves every unedited row
exactly as it was, and each team's sync callback applies exactly this
operation to its own table, touching nothing else in the session. -/
theorem apply_edits_spec (t : List FactorRow) (edits : List (Nat × Int))
    (hnd : (edits.map Prod.fst).Nodup)
    (hrange : ∀ p ∈ edits, 0 ≤ p.2 ∧ p.2 ≤ 100) :
    (apply_edits t edits).length = t.length
    ∧ (∀ row v, edits.lookup row = some v →
        (apply_edits t edits)[row]? =
          (t[row]?).map (fun x => { x with valore := v, barra := v }))
    ∧ (∀ row, row ∉ edits.map Prod.fst →
        (apply_edits t edits)[row]? = t[row]?)
    ∧ (∀ s : SessionState,
        (sync_team1 s edits).team1_df
            = s.team1_df.map (fun tt => apply_edits tt edits)
        ∧ (sync_team1 s edits).team2_df = s.team2_df
        ∧ (sync_team1 s edits).imprevisti_df = s.imprevisti_df
        ∧ (sync_team2 s edits).team2_df
            = s.team2_df.map (fun tt => apply_edits tt edits)
        ∧ (sync_team2 s edits).team1_df = s.team1_df
        ∧ (sync_team2 s edits).imprevisti_df = s.imprevisti_df) :=
  ⟨length_apply_edits t edits,
   fun row v hl => getElem?_apply_edits_lookup edits t row v hnd hl,
   fun row h => getElem?_apply_edits_not_mem t edits row h,
   fun _ => ⟨rfl, rfl, rfl, rfl, rfl, rfl⟩⟩

/-- C5 witness: editing row 2 of a fresh table to 0 sets both columns of
row 2 to 0 and leaves row 1 untouched. -/
theorem apply_edits_spec_witness :
    (([((2 : Nat), (0 : Int))]).map Prod.fst).Nodup
    ∧ (apply_edits defaultTeam [(2, 0)])[2]? =
        ((defaultTeam[2]?).map (fun x => { x with valore := 0, barra := 0 }))
    ∧ (apply_edits defaultTeam [(2, 0)])[1]? = defaultTeam[1]? := by
  have h := apply_edits_spec defaultTeam [(2, 0)] (by decide) (by decide)
  exact ⟨by decide, h.2.1 2 0 (by decide), h.2.2.1 1 (by decide)⟩

/-- C10: `initialize_state` is idempotent; on a missing key it creates
the default eight-row table (both values 100) or the absent catalog, and
it leaves every key already present completely unchanged. -/
theorem initialize_state_spec :
    (∀ s : SessionState,
        initialize_state (initialize_state s) = initialize_state s)
    ∧ (∀ s : SessionState,
        (s.team1_df = none → (initialize_state s).team1_df = some defaultTeam)
        ∧ (s.team2_df = none → (initialize_state s).team2_df = some defaultTeam)
        ∧ (s.imprevisti_df = none →
            (initialize_state s).imprevisti_df = some none)
        ∧ (∀ t, s.team1_df = some t → (initialize_state s).team1_df = some t)
        ∧ (∀ t, s.team2_df = some t → (initialize_state s).team2_df = some t)
        ∧ (∀ c, s.imprevisti_df = some c →
            (initialize_state s).imprevisti_df = some c))
    ∧ defaultTeam.length = 8
    ∧ (∀ r ∈ defaultTeam, r.valore = 100 ∧ r.barra = 100) := by
  refine ⟨fun s => ?_, fun s => ?_, by decide, by decide⟩
  · obtain ⟨t1, t2, c⟩ := s
    cases t1 <;> cases t2 <;> cases c <;> rfl
  · exact ⟨fun h => by simp [initialize_state, h],
      fun h => by simp [initialize_state, h],
      fun h => by simp [initialize_state, h],
      fun t h => by simp [initialize_state, h],
      fun t h => by simp [initialize_state, h],
      fun c h => by simp [initialize_state, h]⟩

/-- C9: `load_data_from_gdrive` is total at its boundary: it always
returns `None` or a parsed dataframe, every failure path (bad host,
malformed path raising IndexError, fetch/parse exception, missing
column) is caught and mapped to `None`, and a `some` result is exactly
the dataframe the fetch produced, which then carries the required
column. -/
theorem load_total_spec (fetch : String → Except String DataFrame)
    (url : String) :
    ((load_data_from_gdrive fetch url).retval = none
      ∨ ∃ df, (load_data_from_gdrive fetch url).retval = some df)
    ∧ (containsSub url "google.com" = false →
        (load_data_from_gdrive fetch url).retval = none)
    ∧ (∀ e, extractFileId url = Except.error e →
        (load_data_from_gdrive fetch url).retval = none)
    ∧ (∀ fid e, extractFileId url = Except.ok fid →
        fetch (exportUrl fid) = Except.error e →
        (load_data_from_gdrive fetch url).retval = none)
    ∧ (∀ fid df, extractFileId url = Except.ok fid →
        fetch (exportUrl fid) = Except.ok df →
        df.hasCol "imprevisto" = false →
        (load_data_from_gdrive fetch url).retval = none)
    ∧ (∀ df, (load_data_from_gdrive fetch url).retval = some df →
        df.hasCol "imprevisto" = true
        ∧ ∃ fid, extractFileId url = Except.ok fid
            ∧ fetch (exportUrl fid) = Except.ok df) := by
  refine ⟨?_, ?_, ?_, ?_, ?_, ?_⟩
  · by_cases hc : containsSub url "google.com" = false
    · exact Or.inl (by simp [load_data_from_gdrive, hc])
    · cases he : extractFileId url with
      | error e => exact Or.inl (by simp [load_data_from_gdrive, hc, he])
      | ok fid =>
        cases hf : fetch (exportUrl fid) with
        | error e => exact Or.inl (by simp [load_data_from_gdrive, hc, he, hf])
        | ok df =>
          by_cases hcol : df.hasCol "imprevisto" = false
          · exact Or.inl (by simp [load_data_from_gdrive, hc, he, hf, hcol])
          · exact Or.inr ⟨df, by simp [load_data_from_gdrive, hc, he, hf, hcol]⟩
  · intro hc
    simp [load_data_from_gdrive, hc]
  · intro e he
    by_cases hc : containsSub url "google.com" = false <;>
      simp [load_data_from_gdrive, hc, he]
  · intro fid e he hf
    by_cases hc : containsSub url "google.com" = false <;>
      simp [load_data_from_gdrive, hc, he, hf]
  · intro fid df he hf hcol
    by_cases hc : containsSub url "google.com" = false <;>
      simp [load_data_from_gdrive, hc, he, hf, hcol]
  · intro df hdf
    by_cases hc : containsSub url "google.com" = false
    · simp [load_data_from_gdrive, hc] at hdf
    · cases he : extractFileId url with
      | error e => simp [load_data_from_gdrive, hc, he] at hdf
      | ok fid =>
        cases hf : fetch (exportUrl fid) with
        | error e => simp [load_data_from_gdrive, hc, he, hf] at hdf
        | ok df2 =>
          by_cases hcol : df2.hasCol "imprevisto" = false
          · simp [load_data_from_gdrive, hc, he, hf, hcol] at hdf
          · have hdf2 : df2 = df := by
              simpa [load_data_from_gdrive, hc, he, hf, hcol] using hdf
            subst hdf2
            exact ⟨by simpa using hcol, fid, rfl, hf⟩

/-- C9 witness: a non-Google URL with a failing transport still returns
`None` rather than raising. -/
theorem load_total_spec_witness :
    containsSub "x" "google.com" = false
    ∧ (load_data_from_gdrive fetchFail "x").retval = none :=
  ⟨by decide, (load_total_spec fetchFail "x").2.1 (by decide)⟩

/-- A session that already holds a successfully loaded catalog. -/
def loadedSession : SessionState :=
  { team1_df := some defaultTeam, team2_df := some defaultTeam,
    imprevisti_df := some (some eventsDf) }

/-- C1 counterexample: with a catalog already loaded, a failing load
(the spec's own invalid-URL scenario) does not leave the stored catalog
unchanged — the handler resets `imprevisti_df` to Python `None`
(src/app.py line 123), overwriting the previous catalog. -/
theorem failed_load_overwrites_catalog_cex :
    (load_data_from_gdrive fetchFail
        "https://example.com/not-google/doc").retval = none
    ∧ (loadButtonHandler fetchFail "https://example.com/not-google/doc"
          loadedSession).1.imprevisti_df ≠ loadedSession.imprevisti_df := by
  exact ⟨by decide, by decide⟩

/-- C1 (amended): every load attempt through the button handler either
fully succeeds and replaces the stored catalog with the newly parsed
document, or fails and resets the stored catalog to absent (Python
`None`) — never a partial or garbage catalog — and the team tables are
untouched either way.  (What the original claim adds — that a failed
load preserves a previously loaded catalog — is exactly what the reset
branch violates.) -/
theorem load_button_replaces_or_resets
    (fetch : String → Except String DataFrame) (url : String)
    (s : SessionState) (h : url ≠ "") :
    ((load_data_from_gdrive fetch url).retval = none →
        (loadButtonHandler fetch url s).1.imprevisti_df = some none)
    ∧ (∀ df, (load_data_from_gdrive fetch url).retval = some df →
        (loadButtonHandler fetch url s).1.imprevisti_df = some (some df))
    ∧ (loadButtonHandler fetch url s).1.team1_df = s.team1_df
    ∧ (loadButtonHandler fetch url s).1.team2_df = s.team2_df := by
  simp only [loadButtonHandler, if_pos h]
  cases hr : (load_data_from_gdrive fetch url).retval with
  | none => exact ⟨fun _ => rfl, fun df hdf => by simp [hr] at hdf, rfl, rfl⟩
  | some data =>
      exact ⟨fun hn => by simp [hr] at hn,
        fun df hdf => by simp only [hr, Option.some.injEq] at hdf; rw [hdf],
        rfl, rfl⟩

/-- C1 witness: on the failed load of the counterexample's input, the
handler stores `None` (the reset), with the team tables untouched. -/
theorem load_button_replaces_or_resets_witness :
    ("https://example.com/not-google/doc" : String) ≠ ""
    ∧ (loadButtonHandler fetchFail "https://example.com/not-google/doc"
          loadedSession).1.imprevisti_df = some none :=
  ⟨by decide,
    (load_button_replaces_or_resets fetchFail
      "https://example.com/not-google/doc" loadedSession (by decide)).1
      (by decide)⟩

/-- C3 counterexample: `https://docs.google.com/d/abc` contains the host
marker and has no complete `/d/<id>/` segment (no `/` closes the id),
yet the load reaches the network fetch — refuting "no network fetch for
every URL lacking a `/d/<id>/` segment". -/
theorem missing_d_segment_still_fetches_cex :
    containsSub "https://docs.google.com/d/abc" "google.com" = true
    ∧ specHasDSegment "https://docs.google.com/d/abc" = false
    ∧ (load_data_from_gdrive fetchFail
        "https://docs.google.com/d/abc").fetched = true :=
  ⟨by decide, by decide, by decide⟩

/-- C3 (amended): for every URL containing the host marker but not
containing `/d/` as a substring at all, the load fails before any
network fetch, returning `None` with the generic caught-exception banner
(Python's IndexError text) — not a distinct malformed-URL error kind;
URLs that do contain `/d/` proceed to the fetch even when no complete
`/d/<id>/` segment follows (see the counterexample). -/
theorem no_d_marker_fails_before_fetch
    (fetch : String → Except String DataFrame) (url : String)
    (hg : containsSub url "google.com" = true)
    (hd : containsSub url "/d/" = false) :
    load_data_from_gdrive fetch url =
      { retval := none,
        msgs := [Msg.loadError "list index out of range", Msg.shareHint],
        fetched := false } := by
  have hlen : ¬ 1 < (pySplit "/d/".data url.data).length := by
    have hd2 := hd
    unfold containsSub at hd2
    exact of_decide_eq_false hd2
  have he : extractFileId url = Except.error "list index out of range" := by
    unfold extractFileId
    cases hp : pySplit "/d/".data url.data with
    | nil => rfl
    | cons a tl =>
      cases tl with
      | nil => rfl
      | cons b tl2 =>
        rw [hp] at hlen
        simp [List.length_cons] at hlen
  unfold load_data_from_gdrive
  rw [if_neg (by simp [hg]), he]

/-- C3 witness: a Google URL with no `/d/` in it fails with the generic
banner, returns `None` and never fetches. -/
theorem no_d_marker_fails_before_fetch_witness :
    containsSub "https://www.google.com/spreadsheets" "google.com" = true
    ∧ containsSub "https://www.google.com/spreadsheets" "/d/" = false
    ∧ load_data_from_gdrive fetchFail "https://www.google.com/spreadsheets" =
      { retval := none,
        msgs := [Msg.loadError "list index out of range", Msg.shareHint],
        fetched := false } :=
  ⟨by decide, by decide,
    no_d_marker_fails_before_fetch fetchFail
      "https://www.google.com/spreadsheets" (by decide) (by decide)⟩

/-- A Google URL whose path has no `/d/` marker at all. -/
def badPathUrl : String := "https://docs.google.com/spreadsheets/no-id-here"

/-- C2 counterexample: a malformed-path failure and a transport failure
— two different kinds of the spec's four-way taxonomy — produce the
same return value (`None`) and the very same banners, so the caller
cannot tell which of the four kinds occurred; the code has no four-kind
error taxonomy. -/
theorem error_kinds_indistinguishable_cex :
    specErrKind fetchFailIndexText badPathUrl
        = some SpecErrKind.malformedUrlError
    ∧ specErrKind fetchFailIndexText goodUrl = some SpecErrKind.fetchError
    ∧ (load_data_from_gdrive fetchFailIndexText badPathUrl).retval
        = (load_data_from_gdrive fetchFailIndexText goodUrl).retval
    ∧ (load_data_from_gdrive fetchFailIndexText badPathUrl).msgs
        = (load_data_from_gdrive fetchFailIndexText goodUrl).msgs :=
  ⟨by decide, by decide, by decide, by decide⟩

/-- C2 (amended): every load failure returns `None` to the caller, and
the banners distinguish only three shapes — the invalid-URL banner (no
host marker), the schema banner (missing `imprevisto` column), and the
generic caught-exception banner carrying the exception text, which is
shared by malformed-path and fetch/parse failures — so no four-kind
taxonomy is observable at the boundary. -/
theorem load_failure_message_shapes
    (fetch : String → Except String DataFrame) (url : String)
    (h : (load_data_from_gdrive fetch url).retval = none) :
    (load_data_from_gdrive fetch url).msgs = [Msg.invalidUrl]
    ∨ (load_data_from_gdrive fetch url).msgs = [Msg.schemaError]
    ∨ ∃ e, (load_data_from_gdrive fetch url).msgs
        = [Msg.loadError e, Msg.shareHint] := by
  by_cases hc : containsSub url "google.com" = false
  · exact Or.inl (by simp [load_data_from_gdrive, hc])
  · cases he : extractFileId url with
    | error e =>
        exact Or.inr (Or.inr ⟨e, by simp [load_data_from_gdrive, hc, he]⟩)
    | ok fid =>
        cases hf : fetch (exportUrl fid) with
        | error e =>
            exact Or.inr (Or.inr ⟨e, by simp [load_data_from_gdrive, hc, he, hf]⟩)
        | ok df =>
            by_cases hcol : df.hasCol "imprevisto" = false
            · exact Or.inr (Or.inl (by simp [load_data_from_gdrive, hc, he, hf, hcol]))
            · exact absurd h (by simp [load_data_from_gdrive, hc, he, hf, hcol])

/-- C2 witness: on a failing input the banners take one of the three
shapes (here: the invalid-URL banner). -/
theorem load_failure_message_shapes_witness :
    (load_data_from_gdrive fetchFail "x").retval = none
    ∧ ((load_data_from_gdrive fetchFail "x").msgs = [Msg.invalidUrl]
      ∨ (load_data_from_gdrive fetchFail "x").msgs = [Msg.schemaError]
      ∨ ∃ e, (load_data_from_gdrive fetchFail "x").msgs
          = [Msg.loadError e, Msg.shareHint]) :=
  ⟨by decide, load_failure_message_shapes fetchFail "x" (by decide)⟩

/-- C8 (spec-modelled cache): starting from a cache with no entry for
the URL, a first load runs and stores its result; a second load of the
same URL at any time within the 600-second time-to-live returns the
identical catalog and performs no network fetch. -/
theorem cached_load_idempotent (fetch : String → Except String DataFrame)
    (cache : Cache) (url : String) (now1 now2 : Nat)
    (hnone : cache.find? (fun e => e.1 == url) = none)
    (h12 : now1 ≤ now2) (httl : now2 - now1 < 600) :
    ((cachedLoad fetch (cachedLoad fetch cache url now1).2.1 url now2).1
        = (cachedLoad fetch cache url now1).1)
    ∧ (cachedLoad fetch (cachedLoad fetch cache url now1).2.1 url now2).2.2
        = false := by
  have h1 : cacheLookup cache url now1 = none := by
    simp [cacheLookup, hnone]
  have hfind :
      ((url, now1, (load_data_from_gdrive fetch url).retval) :: cache).find?
        (fun e => e.1 == url)
        = some (url, now1, (load_data_from_gdrive fetch url).retval) := by
    simp [List.find?]
  have hstep1 : cachedLoad fetch cache url now1
      = ((load_data_from_gdrive fetch url).retval,
         (url, now1, (load_data_from_gdrive fetch url).retval) :: cache,
         (load_data_from_gdrive fetch url).fetched) := by
    simp [cachedLoad, h1]
  have h2 : cacheLookup
      ((url, now1, (load_data_from_gdrive fetch url).retval) :: cache) url now2
      = some (load_data_from_gdrive fetch url).retval := by
    simp [cacheLookup, hfind, httl]
  rw [hstep1]
  constructor <;> simp [cachedLoad, h2]

/-- C8 witness: two loads of the fixture URL at times 0 and 10 on an
empty cache agree, and the second performs no fetch. -/
theorem cached_load_idempotent_witness :
    ([] : Cache).find? (fun e => e.1 == goodUrl) = none
    ∧ (0 : Nat) ≤ 10 ∧ (10 : Nat) - 0 < 600
    ∧ ((cachedLoad fetchEvents
          (cachedLoad fetchEvents [] goodUrl 0).2.1 goodUrl 10).1
        = (cachedLoad fetchEvents [] goodUrl 0).1)
    ∧ (cachedLoad fetchEvents
          (cachedLoad fetchEvents [] goodUrl 0).2.1 goodUrl 10).2.2 = false := by
  have h := cached_load_idempotent fetchEvents [] goodUrl 0 10 (by decide)
    (by decide) (by decide)
  exact ⟨by decide, by decide, by decide, h.1, h.2⟩
